import Mathlib

/-!
Verification development for the scidown command-line front end
(src/bin/scidown.c). The single source file is embedded shallowly: the
descriptor tables, the fixed option data, the renderer selection, the
document-augmentation payload and the md2html pipeline become Lean
definitions, with the external hoedown collaborator abstracted as a
render function parameter and the two clock readings as integer
parameters. The pipeline additionally records a trace of acquisition,
release and reporting events so that ordering and cleanup properties can
be stated.
-/

namespace Scidown

/-- Renderer variants, from enum renderer_type (lines 11-15). -/
inductive RendererType
  | html
  | latex
  | htmlToc
deriving DecidableEq

/-- Descriptor of an extension category (struct extension_category_info). -/
structure ExtensionCategoryInfo where
  flags : Nat
  option_name : String
  label : String
deriving DecidableEq

/-- Descriptor of a single extension (struct extension_info). -/
structure ExtensionInfo where
  flag : Nat
  option_name : String
  description : String
deriving DecidableEq

/-- Descriptor of an HTML output flag (struct html_flag_info). -/
structure HtmlFlagInfo where
  flag : Nat
  option_name : String
  description : String
deriving DecidableEq

/-- Modelled from the spec: the extension bit constants come from the
external library headers (document.h), which are not part of src/; the
spec requires every descriptor to carry a unique power-of-two bit within
its bit space. The concrete values below realize that requirement. -/
def HOEDOWN_EXT_TABLES : Nat := 1
def HOEDOWN_EXT_FENCED_CODE : Nat := 2
def HOEDOWN_EXT_FOOTNOTES : Nat := 4
def HOEDOWN_EXT_AUTOLINK : Nat := 8
def HOEDOWN_EXT_STRIKETHROUGH : Nat := 16
def HOEDOWN_EXT_UNDERLINE : Nat := 32
def HOEDOWN_EXT_HIGHLIGHT : Nat := 64
def HOEDOWN_EXT_QUOTE : Nat := 128
def HOEDOWN_EXT_SUPERSCRIPT : Nat := 256
def HOEDOWN_EXT_MATH : Nat := 512
def HOEDOWN_EXT_NO_INTRA_EMPHASIS : Nat := 2048
def HOEDOWN_EXT_SPACE_HEADERS : Nat := 4096
def HOEDOWN_EXT_MATH_EXPLICIT : Nat := 8192
def HOEDOWN_EXT_DISABLE_INDENTED_CODE : Nat := 16384
def HOEDOWN_EXT_SCI : Nat := 32768

/-- Modelled from the spec: each category bitmask is the union of the bits
of its member extensions (spec section 3, category invariant); the numeric
values live in the external document.h header, absent from src/. -/
def HOEDOWN_EXT_BLOCK : Nat :=
  HOEDOWN_EXT_TABLES ||| HOEDOWN_EXT_FENCED_CODE ||| HOEDOWN_EXT_FOOTNOTES

def HOEDOWN_EXT_SPAN : Nat :=
  HOEDOWN_EXT_AUTOLINK ||| HOEDOWN_EXT_STRIKETHROUGH ||| HOEDOWN_EXT_UNDERLINE |||
  HOEDOWN_EXT_HIGHLIGHT ||| HOEDOWN_EXT_QUOTE ||| HOEDOWN_EXT_SUPERSCRIPT |||
  HOEDOWN_EXT_MATH

def HOEDOWN_EXT_FLAGS : Nat :=
  HOEDOWN_EXT_NO_INTRA_EMPHASIS ||| HOEDOWN_EXT_SPACE_HEADERS |||
  HOEDOWN_EXT_MATH_EXPLICIT ||| HOEDOWN_EXT_SCI

def HOEDOWN_EXT_NEGATIVE : Nat := HOEDOWN_EXT_DISABLE_INDENTED_CODE

/-- Modelled from the spec: the HTML render-flag bits come from the
external html.h header, absent from src/; each is a unique bit in a space
independent from the extensions. -/
def SCIDOWN_RENDER_SKIP_HTML : Nat := 1
def SCIDOWN_RENDER_ESCAPE : Nat := 2
def SCIDOWN_RENDER_HARD_WRAP : Nat := 4
def SCIDOWN_RENDER_USE_XHTML : Nat := 8
def SCIDOWN_RENDER_MERMAID : Nat := 16
def SCIDOWN_RENDER_GNUPLOT : Nat := 32
def SCIDOWN_RENDER_CSS : Nat := 64
def SCIDOWN_RENDER_CHARTER : Nat := 128

/-- categories_info (lines 35-40). -/
def categories_info : List ExtensionCategoryInfo :=
  [ { flags := HOEDOWN_EXT_BLOCK, option_name := "block", label := "Block extensions" },
    { flags := HOEDOWN_EXT_SPAN, option_name := "span", label := "Span extensions" },
    { flags := HOEDOWN_EXT_FLAGS, option_name := "flags", label := "Other flags" },
    { flags := HOEDOWN_EXT_NEGATIVE, option_name := "negative", label := "Negative flags" } ]

/-- extensions_info (lines 42-60). -/
def extensions_info : List ExtensionInfo :=
  [ { flag := HOEDOWN_EXT_TABLES, option_name := "tables",
      description := "Parse PHP-Markdown style tables." },
    { flag := HOEDOWN_EXT_FENCED_CODE, option_name := "fenced-code",
      description := "Parse fenced code blocks." },
    { flag := HOEDOWN_EXT_FOOTNOTES, option_name := "footnotes",
      description := "Parse footnotes." },
    { flag := HOEDOWN_EXT_AUTOLINK, option_name := "autolink",
      description := "Automatically turn safe URLs into links." },
    { flag := HOEDOWN_EXT_STRIKETHROUGH, option_name := "strikethrough",
      description := "Parse ~~stikethrough~~ spans." },
    { flag := HOEDOWN_EXT_UNDERLINE, option_name := "underline",
      description := "Parse _underline_ instead of emphasis." },
    { flag := HOEDOWN_EXT_HIGHLIGHT, option_name := "highlight",
      description := "Parse ==highlight== spans." },
    { flag := HOEDOWN_EXT_QUOTE, option_name := "quote",
      description := "Render \"quotes\" as <q>quotes</q>." },
    { flag := HOEDOWN_EXT_SUPERSCRIPT, option_name := "superscript",
      description := "Parse super^script." },
    { flag := HOEDOWN_EXT_MATH, option_name := "math",
      description := "Parse TeX $$math$$ syntax, Kramdown style." },
    { flag := HOEDOWN_EXT_NO_INTRA_EMPHASIS, option_name := "disable-intra-emphasis",
      description := "Disable emphasis_between_words." },
    { flag := HOEDOWN_EXT_SPACE_HEADERS, option_name := "space-headers",
      description := "Require a space after the hash in headers." },
    { flag := HOEDOWN_EXT_MATH_EXPLICIT, option_name := "math-explicit",
      description := "Instead of guessing by context, parse inline and block math explicitly." },
    { flag := HOEDOWN_EXT_SCI, option_name := "scidown",
      description := "SciDown Extension" },
    { flag := HOEDOWN_EXT_DISABLE_INDENTED_CODE, option_name := "disable-indented-code",
      description := "Do not parse indented code blocks." } ]

/-- html_flags_info (lines 62-70). -/
def html_flags_info : List HtmlFlagInfo :=
  [ { flag := SCIDOWN_RENDER_SKIP_HTML, option_name := "skip-html",
      description := "Strip all HTML tags." },
    { flag := SCIDOWN_RENDER_ESCAPE, option_name := "escape",
      description := "Escape all HTML." },
    { flag := SCIDOWN_RENDER_HARD_WRAP, option_name := "hard-wrap",
      description := "Render each linebreak as <br>." },
    { flag := SCIDOWN_RENDER_USE_XHTML, option_name := "xhtml",
      description := "Render XHTML." },
    { flag := SCIDOWN_RENDER_MERMAID, option_name := "mermaid",
      description := "Render mermaid diagrams." },
    { flag := SCIDOWN_RENDER_GNUPLOT, option_name := "gnuplot",
      description := "Render gnuplot plot." },
    { flag := SCIDOWN_RENDER_CSS, option_name := "style",
      description := "Set specified style-sheet." } ]

/-- category_prefix in the source (line 72); renamed here. -/
def category_pref : String := "all-"

/-- negative_prefix in the source (line 73); renamed here. -/
def negative_pref : String := "no-"

/-- DEF_IUNIT (line 75). -/
def DEF_IUNIT : Nat := 1024

/-- DEF_OUNIT (line 76). -/
def DEF_OUNIT : Nat := 64

/-- DEF_MAX_NESTING (line 77). -/
def DEF_MAX_NESTING : Nat := 16

/-- localization (three caption strings). -/
structure Localization where
  figure : String
  listing : String
  table : String
deriving DecidableEq

/-- get_local (lines 80-87). -/
def get_local : Localization :=
  { figure := "Figure", listing := "Listing", table := "Table" }

/-- struct option_data (lines 153-169). -/
structure OptionData where
  show_time : Int
  iunit : Nat
  ounit : Nat
  renderer : RendererType
  toc_level : Int
  render_flags : Nat
  extensions : Nat
  max_nesting : Nat
deriving DecidableEq

/-- The option values md2html fixes before running the pipeline
(lines 182-189). -/
def md2html_defaults : OptionData :=
  { show_time := 1
    iunit := DEF_IUNIT
    ounit := DEF_OUNIT
    renderer := RendererType.html
    toc_level := 0
    render_flags := SCIDOWN_RENDER_MERMAID ||| SCIDOWN_RENDER_CHARTER |||
      SCIDOWN_RENDER_GNUPLOT ||| SCIDOWN_RENDER_CSS
    extensions := HOEDOWN_EXT_BLOCK ||| HOEDOWN_EXT_SPAN ||| HOEDOWN_EXT_FLAGS
    max_nesting := DEF_MAX_NESTING }

/-- hoedown_buffer: the byte contents together with the allocation unit. -/
structure HoedownBuffer where
  data : List Nat
  unit : Nat
deriving DecidableEq

/-- hoedown_buffer_new(unit): a fresh empty buffer. -/
def hoedown_buffer_new (unit : Nat) : HoedownBuffer :=
  { data := [], unit := unit }

/-- hoedown_buffer_set: replace the contents with the given bytes. -/
def hoedown_buffer_set (b : HoedownBuffer) (bytes : List Nat) : HoedownBuffer :=
  { b with data := bytes }

/-- Size of a buffer, as used through ob->size and ib->size. -/
def HoedownBuffer.size (b : HoedownBuffer) : Nat := b.data.length

/-- The extra header text the code splices in for the HTML variant
(lines 208-215). -/
def html_extra_header : String :=
  "<link rel=\"stylesheet\" href=\"qrc:/web_res/ajax/libs/KaTeX/0.11.1/katex.min.css\" crossorigin=\"anonymous\">" ++
  "<link rel=\"stylesheet\" href=\"qrc:/web_res/ajax/libs/highlight.js/9.18.1/styles/xcode.min.css\">" ++
  "<script src=\"qrc:/web_res/ajax/libs/KaTeX/0.11.1/katex.min.js\" crossorigin=\"anonymous\"></script>\n" ++
  "<script src=\"qrc:/web_res/ajax/libs/KaTeX/0.11.1/contrib/auto-render.min.js\" crossorigin=\"anonymous\"></script>\n" ++
  "<script src=\"qrc:/web_res/ajax/libs/highlight.js/9.18.1/highlight.min.js\"></script>" ++
  "<script src=\"qrc:/web_res/npm/mermaid@8.4.0/dist/mermaid.min.js\"></script>"

/-- The extra closing text the code splices in for the HTML variant
(lines 216-226). -/
def html_extra_closing : String :=
  "<style>@font-face \x7b\n" ++
  "    font-family: \x27HiraginoSans\x27;\n" ++
  "    src: url(\x27qrc:/web_res/HiraginoSansGBW6.otf\x27);\n" ++
  "    font-weight: 300;\n" ++
  "    font-style: normal;\n" ++
  "  \x7d" ++
  "body \x7b" ++
  "   font-family: \x27HiraginoSans\x27;" ++
  "\x7d" ++
  " </style>" ++
  "<script>renderMathInElement(document.body); hljs.initHighlightingOnLoad(); mermaid.initialize(\x7bstartOnLoad:true\x7d);</script>\n"

/-- ext_definition: the document-augmentation payload of a prologue and an
epilogue text block; NULL fields are represented by none. -/
structure ExtDefinition where
  extra_header : Option String
  extra_closing : Option String
deriving DecidableEq

/-- The payload md2html builds (lines 206-227): initialized to two NULLs
and filled only when the renderer variant is HTML. -/
def ext_definition_of (v : RendererType) : ExtDefinition :=
  if v = RendererType.html then
    { extra_header := some html_extra_header, extra_closing := some html_extra_closing }
  else
    { extra_header := none, extra_closing := none }

/-- Whether the augmentation payload carries any content. -/
def ext_payload_present (v : RendererType) : Bool :=
  (ext_definition_of v).extra_header.isSome || (ext_definition_of v).extra_closing.isSome

/-- The three external renderer constructors the code can invoke
(lines 195-200). -/
inductive RendererCtor
  | hoedown_html_renderer_new
  | hoedown_html_toc_renderer_new
  | scidown_latex_renderer_new
deriving DecidableEq

/-- Which constructor md2html invokes for each renderer variant
(lines 195-200). -/
def renderer_ctor_of : RendererType → RendererCtor
  | RendererType.html => RendererCtor.hoedown_html_renderer_new
  | RendererType.htmlToc => RendererCtor.hoedown_html_toc_renderer_new
  | RendererType.latex => RendererCtor.scidown_latex_renderer_new

/-- The renderer teardown functions of the external library. -/
inductive RendererFreeFn
  | hoedown_html_renderer_free
  | scidown_latex_renderer_free
deriving DecidableEq

/-- Line 201: after the variant dispatch, the code assigns
hoedown_html_renderer_free as the teardown unconditionally, whatever the
variant was. -/
def renderer_free_assigned : RendererType → RendererFreeFn :=
  fun _ => RendererFreeFn.hoedown_html_renderer_free

/-- Modelled from the spec: the teardown operation that matches each
variant constructor ("an opaque renderer handle and its matching teardown
operation, obtained by invoking the external library constructor for the
selected variant"). The library code carrying these teardowns (html.c,
latex.c) is outside src/; following the library convention, the HTML and
HTML-with-TOC constructors share the HTML teardown, while the LaTeX
constructor has its own. -/
def matching_renderer_free : RendererType → RendererFreeFn
  | RendererType.html => RendererFreeFn.hoedown_html_renderer_free
  | RendererType.htmlToc => RendererFreeFn.hoedown_html_renderer_free
  | RendererType.latex => RendererFreeFn.scidown_latex_renderer_free

/-- hoedown_document: the data hoedown_document_new receives (line 228). -/
structure HoedownDocument where
  renderer_ctor : RendererCtor
  extensions : Nat
  ext : ExtDefinition
  max_nesting : Nat
deriving DecidableEq

/-- hoedown_document_new (line 228). -/
def hoedown_document_new (r : RendererCtor) (e : Nat) (x : ExtDefinition)
    (n : Nat) : HoedownDocument :=
  { renderer_ctor := r, extensions := e, ext := x, max_nesting := n }

/-- The document md2html constructs from a given option record
(lines 195-228). -/
def pipeline_document (data : OptionData) : HoedownDocument :=
  hoedown_document_new (renderer_ctor_of data.renderer) data.extensions
    (ext_definition_of data.renderer) data.max_nesting

/-- The four resources the pipeline acquires and releases. -/
inductive Resource
  | inputBuf
  | outputBuf
  | doc
  | rend
deriving DecidableEq

/-- Observable events of one pipeline run. The optionError event exists to
express the option-error taxonomy of the spec; md2html parses no options
and never emits it. -/
inductive Event
  | acquire (r : Resource)
  | release (r : Resource)
  | renderCall
  | optionError
  | timingFailure
  | timingLine
deriving DecidableEq

/-- Result of one md2html run: its event trace, return value, and the
caller-visible output pointer contents and length. -/
structure RunResult where
  trace : List Event
  ret : Int
  output_data : List Nat
  output_size : Nat
deriving DecidableEq

/-- The body of md2html (lines 171-261) parametrized by the option record
it starts from; in the source the record is always md2html_defaults (see
md2html below). The external hoedown_document_render is abstracted as
renderFn, and the two clock() readings as t1 and t2. Each statement of
the C body appends its event to the trace in source order. -/
def md2html_with (data : OptionData) (renderFn : HoedownDocument → List Nat → List Nat)
    (t1 t2 : Int) (input_data : List Nat) : RunResult :=
  -- lines 191-192: ib = hoedown_buffer_new(data.iunit); hoedown_buffer_set(ib, ...)
  let ib := hoedown_buffer_set (hoedown_buffer_new data.iunit) input_data
  let tr1 : List Event := [Event.acquire Resource.inputBuf]
  -- lines 195-201: renderer creation and teardown assignment
  let tr2 := tr1 ++ [Event.acquire Resource.rend]
  -- line 204: ob = hoedown_buffer_new(data.ounit)
  let ob0 := hoedown_buffer_new data.ounit
  let tr3 := tr2 ++ [Event.acquire Resource.outputBuf]
  -- lines 206-228: ext payload and document construction
  let document := pipeline_document data
  let tr4 := tr3 ++ [Event.acquire Resource.doc]
  -- lines 230-232: t1 = clock(); hoedown_document_render(...); t2 = clock()
  let ob := { ob0 with data := renderFn document ib.data }
  let tr5 := tr4 ++ [Event.renderCall]
  -- lines 235-237: free ib, free document, renderer_free(renderer)
  let tr6 := tr5 ++ [Event.release Resource.inputBuf, Event.release Resource.doc,
    Event.release Resource.rend]
  -- lines 239-242: malloc(ob->size); memcpy(output, ob->data, ob->size)
  let output := List.take ob.size ob.data
  -- line 243: free ob
  let tr7 := tr6 ++ [Event.release Resource.outputBuf]
  -- lines 246-259: timing report
  let tr8 := tr7 ++
    (if data.show_time ≠ 0 then
      (if t1 = -1 ∨ t2 = -1 then [Event.timingFailure] else [Event.timingLine])
     else [])
  { trace := tr8
    ret := if data.show_time ≠ 0 ∧ (t1 = -1 ∨ t2 = -1) then 1 else 0
    output_data := output
    output_size := ob.size }

/-- md2html (lines 171-261): the pipeline run from the fixed option values
of lines 182-189. -/
def md2html (renderFn : HoedownDocument → List Nat → List Nat)
    (t1 t2 : Int) (input_data : List Nat) : RunResult :=
  md2html_with md2html_defaults renderFn t1 t2 input_data

/-- The sequence of resources a trace releases, in order. -/
def releaseOrder (tr : List Event) : List Resource :=
  tr.filterMap (fun e =>
    match e with
    | Event.release r => some r
    | _ => none)

/-- Every one of the four resources is acquired exactly once and released
exactly once in the trace. -/
def resourcesBalanced (tr : List Event) : Bool :=
  [Resource.inputBuf, Resource.outputBuf, Resource.doc, Resource.rend].all
    (fun r => tr.count (Event.acquire r) == 1 && tr.count (Event.release r) == 1)

/-- The part of a trace that precedes any timing report event. -/
def preTiming (tr : List Event) : List Event :=
  tr.takeWhile (fun e => !(e == Event.timingFailure || e == Event.timingLine))

/-- The render has run and all four resources have been released. -/
def cleanupAndRenderDone (tr : List Event) : Bool :=
  resourcesBalanced tr && tr.count Event.renderCall == 1

/-- Shape of the trace of a run, for any starting option record. -/
theorem md2html_with_trace (data : OptionData)
    (renderFn : HoedownDocument → List Nat → List Nat) (t1 t2 : Int)
    (input_data : List Nat) :
    (md2html_with data renderFn t1 t2 input_data).trace =
      [Event.acquire Resource.inputBuf, Event.acquire Resource.rend,
       Event.acquire Resource.outputBuf, Event.acquire Resource.doc,
       Event.renderCall, Event.release Resource.inputBuf,
       Event.release Resource.doc, Event.release Resource.rend,
       Event.release Resource.outputBuf] ++
      (if data.show_time ≠ 0 then
        (if t1 = -1 ∨ t2 = -1 then [Event.timingFailure] else [Event.timingLine])
       else []) := rfl

/-- Outcome of looking an option name up in the flag registry: a single
extension bit, a single output-flag bit, or a whole category bitmask. -/
inductive RegistryHit
  | extBit (bit : Nat)
  | outBit (bit : Nat)
  | categoryMask (mask : Nat)
deriving DecidableEq

/-- Strip a leading verbatim text from a character list, when present. -/
def stripPref : List Char → List Char → Option (List Char)
  | [], cs => some cs
  | _ :: _, [] => none
  | p :: ps, c :: cs => if p == c then stripPref ps cs else none

/-- Split a character list at its first equal sign into key and value. -/
def splitAtEq : List Char → Option (List Char × List Char)
  | [] => none
  | c :: rest =>
    if c == Char.ofNat 61 then some ([], rest)
    else
      match splitAtEq rest with
      | some (k, v) => some (c :: k, v)
      | none => none

/-- Parse a decimal non-negative integer; malformed input gives none. -/
def parseNonNegChars (cs : List Char) : Option Nat :=
  if cs ≠ [] ∧ cs.all Char.isDigit then
    some (cs.foldl (fun n c => 10 * n + (c.toNat - 48)) 0)
  else none

/-- Modelled from the spec (section 4.1): resolve a plain option name
against the registry tables of src/ — the category bulk-toggle names are
the category names under the category prefix, then the extension table
and the HTML-flag table are searched for the name itself. The resolver
loop itself is absent from src/ (md2html fixes the defaults without
reading tokens), so it is reconstructed from the spec over the tables the
source does define. -/
def lookupRegistryChars (name : List Char) : Option RegistryHit :=
  match categories_info.find? (fun c => (category_pref ++ c.option_name).data == name) with
  | some c => some (RegistryHit.categoryMask c.flags)
  | none =>
    match extensions_info.find? (fun e => e.option_name.data == name) with
    | some e => some (RegistryHit.extBit e.flag)
    | none =>
      match html_flags_info.find? (fun f => f.option_name.data == name) with
      | some f => some (RegistryHit.outBit f.flag)
      | none => none

/-- Modelled from the spec (section 4.2): apply one registry hit to the
working configuration — set or clear the single bit, or the whole
category bitmask, in the bit space the hit belongs to. -/
def applyHit (cfg : OptionData) (hit : RegistryHit) (enable : Bool) : OptionData :=
  match hit with
  | RegistryHit.extBit b =>
    if enable then { cfg with extensions := cfg.extensions ||| b }
    else { cfg with extensions := Nat.ldiff cfg.extensions b }
  | RegistryHit.outBit b =>
    if enable then { cfg with render_flags := cfg.render_flags ||| b }
    else { cfg with render_flags := Nat.ldiff cfg.render_flags b }
  | RegistryHit.categoryMask m =>
    if enable then { cfg with extensions := cfg.extensions ||| m }
    else { cfg with extensions := Nat.ldiff cfg.extensions m }

/-- Modelled from the spec (section 4.2): resolution of one option token.
A token is, in order: a registry name, a negated registry name, a
key=value numeric option (nesting limit, TOC depth, chunk sizes), a
renderer selector, or the timing toggle; anything else is the
"unrecognized option" error, rendered here as none. -/
def resolveToken (cfg : OptionData) (token : String) : Option OptionData :=
  let cs := token.data
  match lookupRegistryChars cs with
  | some hit => some (applyHit cfg hit true)
  | none =>
    match (stripPref negative_pref.data cs).bind lookupRegistryChars with
    | some hit => some (applyHit cfg hit false)
    | none =>
      match splitAtEq cs with
      | some (key, value) =>
        if key == "max-nesting".data then
          (parseNonNegChars value).map (fun n => { cfg with max_nesting := n })
        else if key == "toc-level".data then
          (parseNonNegChars value).map (fun n => { cfg with toc_level := Int.ofNat n })
        else if key == "input-unit".data then
          (parseNonNegChars value).map (fun n => { cfg with iunit := n })
        else if key == "output-unit".data then
          (parseNonNegChars value).map (fun n => { cfg with ounit := n })
        else none
      | none =>
        if cs == "html".data then some { cfg with renderer := RendererType.html }
        else if cs == "latex".data then some { cfg with renderer := RendererType.latex }
        else if cs == "html-toc".data then some { cfg with renderer := RendererType.htmlToc }
        else if cs == "time".data then some { cfg with show_time := 1 }
        else none

/-- A token the resolver recognizes: a registry name (plain or negated),
a recognized key=value numeric option, a renderer selector, or the timing
toggle. -/
def recognizedToken (token : String) : Bool :=
  let cs := token.data
  (lookupRegistryChars cs).isSome ||
  ((stripPref negative_pref.data cs).bind lookupRegistryChars).isSome ||
  (match splitAtEq cs with
   | some (key, _) =>
     key == "max-nesting".data || key == "toc-level".data ||
     key == "input-unit".data || key == "output-unit".data
   | none => false) ||
  cs == "html".data || cs == "latex".data || cs == "html-toc".data || cs == "time".data

/-- C1 (amended): in every run of md2html, whatever the render function
wrote and whatever the clock readings were, the pipeline releases the
input buffer, the document, the renderer, and the output buffer, in that
order. The release order is independent of the outcome of the render
step, but it is not the order the claim states (input, output, document,
renderer). -/
theorem c1_release_order (renderFn : HoedownDocument → List Nat → List Nat)
    (t1 t2 : Int) (input_data : List Nat) :
    releaseOrder (md2html renderFn t1 t2 input_data).trace =
      [Resource.inputBuf, Resource.doc, Resource.rend, Resource.outputBuf] := by
  rw [md2html, md2html_with_trace]
  by_cases h : t1 = -1 ∨ t2 = -1 <;>
    simp [releaseOrder, md2html_defaults, h]

/-- C1 counterexample: at a concrete run the release order differs from
the claimed order input buffer, output buffer, document, renderer; the
code frees the output buffer last (line 243), after the document and the
renderer (lines 236-237). -/
theorem c1_counterexample :
    releaseOrder (md2html (fun _ _ => []) 0 0 []).trace ≠
      [Resource.inputBuf, Resource.outputBuf, Resource.doc, Resource.rend] := by
  decide

/-- C2: in every run of md2html, on every outcome (timing success or
timing failure), each of the four acquired resources (input buffer,
output buffer, document, renderer) is acquired exactly once and released
exactly once before the call returns; no acquired resource remains
unreleased. -/
theorem c2_no_leaks (renderFn : HoedownDocument → List Nat → List Nat)
    (t1 t2 : Int) (input_data : List Nat) :
    resourcesBalanced (md2html renderFn t1 t2 input_data).trace = true := by
  rw [md2html, md2html_with_trace]
  by_cases h : t1 = -1 ∨ t2 = -1 <;>
    simp [resourcesBalanced, md2html_defaults, h]

/-- C3: when either clock reading is -1, the run returns the failure
value 1, yet the rendered bytes and their length are still delivered
through the output fields, and the failure report happens only after the
render call and all four releases: the part of the trace that precedes
the timing report already contains the render call and every release. -/
theorem c3_timing_failure_after_success
    (renderFn : HoedownDocument → List Nat → List Nat)
    (t1 t2 : Int) (input_data : List Nat) (h : t1 = -1 ∨ t2 = -1) :
    (md2html renderFn t1 t2 input_data).ret = 1 ∧
    (md2html renderFn t1 t2 input_data).output_data =
      renderFn (pipeline_document md2html_defaults) input_data ∧
    (md2html renderFn t1 t2 input_data).output_size =
      (renderFn (pipeline_document md2html_defaults) input_data).length ∧
    cleanupAndRenderDone (preTiming (md2html renderFn t1 t2 input_data).trace) = true ∧
    (md2html renderFn t1 t2 input_data).trace.count Event.timingFailure = 1 := by
  refine ⟨?_, ?_, ?_, ?_, ?_⟩ <;>
    simp [md2html, md2html_with, preTiming, cleanupAndRenderDone, resourcesBalanced,
      pipeline_document, hoedown_buffer_set, hoedown_buffer_new,
      HoedownBuffer.size, md2html_defaults, h, List.take_length]

/-- Witness for C3 at a concrete run: first clock reading -1, render
output two bytes. -/
theorem c3_witness :
    ((-1 : Int) = -1 ∨ (0 : Int) = -1) ∧
    ((md2html (fun _ _ => [104, 105]) (-1) 0 [35]).ret = 1 ∧
     (md2html (fun _ _ => [104, 105]) (-1) 0 [35]).output_data =
       (fun (_ : HoedownDocument) (_ : List Nat) => [104, 105])
         (pipeline_document md2html_defaults) [35] ∧
     (md2html (fun _ _ => [104, 105]) (-1) 0 [35]).output_size =
       ((fun (_ : HoedownDocument) (_ : List Nat) => [104, 105])
         (pipeline_document md2html_defaults) [35]).length ∧
     cleanupAndRenderDone
       (preTiming (md2html (fun _ _ => [104, 105]) (-1) 0 [35]).trace) = true ∧
     (md2html (fun _ _ => [104, 105]) (-1) 0 [35]).trace.count Event.timingFailure = 1) :=
  ⟨Or.inl rfl, c3_timing_failure_after_success _ (-1) 0 [35] (Or.inl rfl)⟩

/-- C4 (amended): md2html returns 0 on success and 1 exactly when a clock
reading is -1 (a timing-measurement failure, not an option-parsing
error); no run emits an option error, and no run returns 4 or 5 — those
codes belong to exit paths that do not exist in md2html. -/
theorem c4_return_codes (renderFn : HoedownDocument → List Nat → List Nat)
    (t1 t2 : Int) (input_data : List Nat) :
    (md2html renderFn t1 t2 input_data).ret =
      (if t1 = -1 ∨ t2 = -1 then 1 else 0) ∧
    (md2html renderFn t1 t2 input_data).trace.count Event.optionError = 0 := by
  constructor
  · by_cases h : t1 = -1 ∨ t2 = -1 <;> simp [md2html, md2html_with, md2html_defaults, h]
  · rw [md2html, md2html_with_trace]
    by_cases h : t1 = -1 ∨ t2 = -1 <;> simp [md2html_defaults, h]

/-- C4 counterexample: the run whose first clock reading is -1 returns 1
although no option-parsing error occurred in it (md2html parses no
options; its trace holds no option-error event), so 1 is not produced
only for option-parsing errors. -/
theorem c4_counterexample :
    (md2html (fun _ _ => []) (-1) 0 []).ret = 1 ∧
    (md2html (fun _ _ => []) (-1) 0 []).trace.count Event.optionError = 0 := by
  decide

/-- C5: the baseline configuration md2html starts from has renderer
variant HTML, TOC depth 0, the default nesting limit 16, the default
input chunk size 1024 and output chunk size 64, the block, span and
flags extension categories enabled, and the mermaid, charter, gnuplot
and style output flags enabled. -/
theorem c5_baseline_configuration :
    md2html_defaults.renderer = RendererType.html ∧
    md2html_defaults.toc_level = 0 ∧
    md2html_defaults.max_nesting = DEF_MAX_NESTING ∧
    DEF_MAX_NESTING = 16 ∧
    md2html_defaults.iunit = DEF_IUNIT ∧
    DEF_IUNIT = 1024 ∧
    md2html_defaults.ounit = DEF_OUNIT ∧
    DEF_OUNIT = 64 ∧
    md2html_defaults.extensions =
      HOEDOWN_EXT_BLOCK ||| HOEDOWN_EXT_SPAN ||| HOEDOWN_EXT_FLAGS ∧
    md2html_defaults.render_flags =
      SCIDOWN_RENDER_MERMAID ||| SCIDOWN_RENDER_CHARTER |||
        SCIDOWN_RENDER_GNUPLOT ||| SCIDOWN_RENDER_CSS := by
  decide

/-- C6 (amended): the code pairs every renderer variant with the same
teardown, hoedown_html_renderer_free (line 201); because md2html always
selects the HTML variant, the teardown invoked at cleanup is the one
matching the constructor that was actually used. -/
theorem c6_teardown_assignment (v : RendererType) :
    renderer_free_assigned v = RendererFreeFn.hoedown_html_renderer_free ∧
    renderer_free_assigned md2html_defaults.renderer =
      matching_renderer_free md2html_defaults.renderer :=
  ⟨rfl, rfl⟩

/-- C6 counterexample: for the LaTeX variant the assigned teardown is the
HTML one, not the teardown matching the LaTeX constructor, so the pairing
is not per-variant as the claim states. -/
theorem c6_counterexample :
    renderer_free_assigned RendererType.latex ≠
      matching_renderer_free RendererType.latex := by
  decide

/-- C7: the document-augmentation payload carries content exactly for the
HTML variant; for the LaTeX and HTML-with-TOC variants the payload passed
to document construction has no prologue and no epilogue. -/
theorem c7_augmentation_payload (v : RendererType) :
    ext_payload_present v = (v == RendererType.html) ∧
    ext_definition_of RendererType.latex =
      { extra_header := none, extra_closing := none } ∧
    ext_definition_of RendererType.htmlToc =
      { extra_header := none, extra_closing := none } := by
  cases v <;> exact ⟨rfl, rfl, rfl⟩

/-- C8: for every starting option record (in particular for every output
chunk size), every render result and every input, the output bytes
md2html_with hands to the caller are exactly the bytes the render call
wrote into the output buffer, and the reported length is their number. -/
theorem c8_output_fidelity (data : OptionData)
    (renderFn : HoedownDocument → List Nat → List Nat) (t1 t2 : Int)
    (input_data : List Nat) :
    (md2html_with data renderFn t1 t2 input_data).output_data =
      renderFn (pipeline_document data) input_data ∧
    (md2html_with data renderFn t1 t2 input_data).output_size =
      (renderFn (pipeline_document data) input_data).length := by
  constructor <;>
    simp [md2html_with, hoedown_buffer_set, hoedown_buffer_new,
      HoedownBuffer.size, List.take_length]

/-- C9: any token that the registry does not resolve (neither plainly nor
in negated form), that is not a recognized key=value numeric option, not
a renderer selector and not the timing toggle, makes the resolver fail
with the unrecognized-option error (none); it is never silently
accepted. -/
theorem c9_unknown_token (cfg : OptionData) (token : String)
    (h : recognizedToken token = false) :
    resolveToken cfg token = none := by
  simp only [recognizedToken, Bool.or_eq_false_iff] at h
  obtain ⟨⟨⟨⟨⟨⟨h1, h2⟩, h3⟩, h4⟩, h5⟩, h6⟩, h7⟩ := h
  simp only [resolveToken]
  cases ho : lookupRegistryChars token.data with
  | some hit => rw [ho] at h1; simp at h1
  | none =>
    cases hn : (stripPref negative_pref.data token.data).bind lookupRegistryChars with
    | some hit => rw [hn] at h2; simp at h2
    | none =>
      cases hs : splitAtEq token.data with
      | some kv =>
        obtain ⟨key, value⟩ := kv
        rw [hs] at h3
        simp only [Bool.or_eq_false_iff] at h3
        obtain ⟨⟨⟨k1, k2⟩, k3⟩, k4⟩ := h3
        simp [ho, hn, hs, k1, k2, k3, k4]
      | none =>
        simp [ho, hn, hs, h4, h5, h6, h7]

/-- Witness for C9 at the concrete unknown token "frobnicate". -/
theorem c9_witness :
    recognizedToken "frobnicate" = false ∧
    resolveToken md2html_defaults "frobnicate" = none :=
  ⟨rfl, c9_unknown_token md2html_defaults "frobnicate" rfl⟩

/-- C10: the show-time setting md2html runs with is fixed to 1, every run
emits exactly one timing event (the failure report or the timing line) —
so the timing report is attempted on every call and no input disables it
— and the run returns the failure value 1 exactly when a clock reading
is -1. -/
theorem c10_timing_always_on (renderFn : HoedownDocument → List Nat → List Nat)
    (t1 t2 : Int) (input_data : List Nat) :
    md2html_defaults.show_time = 1 ∧
    (md2html renderFn t1 t2 input_data).trace.count Event.timingFailure +
      (md2html renderFn t1 t2 input_data).trace.count Event.timingLine = 1 ∧
    (md2html renderFn t1 t2 input_data).ret =
      (if t1 = -1 ∨ t2 = -1 then 1 else 0) := by
  refine ⟨rfl, ?_, ?_⟩
  · rw [md2html, md2html_with_trace]
    by_cases h : t1 = -1 ∨ t2 = -1 <;> simp [md2html_defaults, h]
  · by_cases h : t1 = -1 ∨ t2 = -1 <;> simp [md2html, md2html_with, md2html_defaults, h]

end Scidown
